import Mathlib

/-!
Verification development for the nedrexapi asynchronous job subsystem.

The Python sources are shallowly embedded: pure helper functions become Lean
functions over `String`/`List`, MongoDB collections become lists of typed
documents, and the background runners become explicit state-passing functions
parameterised by an environment that supplies the outcomes of external calls
(subprocess exit codes, contents of output files).  Numbers stored in job
documents are modelled by `Int`/`Rat`; the only float in play (the TrustRank
damping factor) is only ever stored and compared for equality, never computed
with, so `Rat` is a faithful model.
-/

namespace NedrexApi

/-! ### Python string primitives

Python `str` methods used by the routers, modelled over `String.data`
(`List Char`), which the Lean kernel evaluates directly.  Identifiers handled
by this API are ASCII, and on ASCII these models agree with CPython:
`str.upper` maps each character through `Char.toUpper`, `str.isnumeric` is
true for a non-empty all-digit string, and `str.replace` substitutes every
non-overlapping occurrence left to right.
-/

/-- Python `s.upper()` (ASCII). -/
def pyUpper (s : String) : String := ⟨s.data.map Char.toUpper⟩

/-- Python `s.startswith(pre)`. -/
def pyStartsWith (s pre : String) : Bool := pre.data.isPrefixOf s.data

/-- Python `s.isnumeric()` for ASCII strings: non-empty and all digits. -/
def pyIsNumeric (s : String) : Bool := !s.data.isEmpty && s.data.all Char.isDigit

/-- Worker for `pyReplace`: replaces occurrences of `pat` by `rep`, scanning
left to right; `fuel` bounds the scan and is instantiated with the length of
the scanned list, which suffices because each step consumes at least one
character (all patterns in this development are non-empty). -/
def pyReplaceAux (pat rep : List Char) : Nat → List Char → List Char
  | _, [] => []
  | 0, s => s
  | fuel + 1, c :: rest =>
    if pat.isPrefixOf (c :: rest) then
      rep ++ pyReplaceAux pat rep fuel ((c :: rest).drop pat.length)
    else
      c :: pyReplaceAux pat rep fuel rest

/-- Python `s.replace(pat, rep)`: every non-overlapping occurrence of `pat`
is replaced by `rep`, left to right. -/
def pyReplace (s pat rep : String) : String :=
  ⟨pyReplaceAux pat.data rep.data s.data.length s.data⟩

/-- The ordering Python uses to compare strings: lexicographic comparison of
code points, i.e. the lexicographic order on `String.data`. -/
def pyLe (a b : String) : Prop := a.data ≤ b.data

instance pyLe.decidableRel : DecidableRel pyLe :=
  fun a b => inferInstanceAs (Decidable (a.data ≤ b.data))

instance pyLe.isTrans : IsTrans String pyLe :=
  ⟨fun _ _ _ hab hbc => le_trans hab hbc⟩

instance pyLe.isTotal : IsTotal String pyLe :=
  ⟨fun a b => le_total a.data b.data⟩

instance pyLe.isAntisymm : IsAntisymm String pyLe := by
  constructor
  intro a b hab hba
  cases a
  cases b
  exact congrArg String.mk (le_antisymm hab hba)

/-- Python `sorted(l)` for a list of strings: stable ascending sort by code
points.  Insertion sort produces the same list as CPython timsort does for
any input, because both return the unique `pyLe`-sorted stable permutation. -/
def pySorted (l : List String) : List String := List.insertionSort pyLe l

theorem pySorted_sorted (l : List String) : List.Sorted pyLe (pySorted l) :=
  List.sorted_insertionSort pyLe l

theorem pySorted_perm (l : List String) : (pySorted l).Perm l :=
  List.perm_insertionSort pyLe l

/-- Sorting is permutation-invariant: Python `sorted` erases submission
order. -/
theorem pySorted_eq_of_perm {l₁ l₂ : List String} (h : l₁.Perm l₂) :
    pySorted l₁ = pySorted l₂ := by
  apply List.eq_of_perm_of_sorted (r := pyLe)
  · exact ((pySorted_perm l₁).trans h).trans (pySorted_perm l₂).symm
  · exact pySorted_sorted l₁
  · exact pySorted_sorted l₂

theorem pySorted_length (l : List String) : (pySorted l).length = l.length :=
  (pySorted_perm l).length_eq

/-! ### Seed normalisation (`nedrexapi/routers/diamond.py`, lines 106-120) -/

/-- Embeds `normalise_seeds_and_determine_type(seeds)` from
`routers/diamond.py`: uppercase every seed, then infer the seed type and
strip the matching namespace prefix.  Note that `str.replace` removes every
occurrence of the pattern, exactly as the Python does. -/
def normalise_seeds_and_determine_type (seeds : List String) : List String × String :=
  let new_seeds := seeds.map pyUpper
  if new_seeds.all (fun seed => pyStartsWith seed "ENTREZ.") then
    (new_seeds.map (fun seed => pyReplace seed "ENTREZ." ""), "gene")
  else if new_seeds.all pyIsNumeric then
    (new_seeds, "gene")
  else if new_seeds.all (fun seed => pyStartsWith seed "UNIPROT.") then
    (new_seeds.map (fun seed => pyReplace seed "UNIPROT." ""), "protein")
  else
    (new_seeds, "protein")

/-- Modelled from the spec sentence behind claim C5, for comparison with the
source function: uppercase the entries; the type is `gene` when all entries
carry the gene-namespace prefix or all are purely numeric, `protein` when all
carry the protein-namespace prefix, and `protein` in every other case; the
recognized namespace prefix is removed when all entries carry it. -/
def normalise_seeds_heuristic_spec (seeds : List String) : List String × String :=
  let up := seeds.map pyUpper
  if up.all (fun seed => pyStartsWith seed "ENTREZ.") || up.all pyIsNumeric then
    (if up.all (fun seed => pyStartsWith seed "ENTREZ.") then
      up.map (fun seed => pyReplace seed "ENTREZ." "")
     else up, "gene")
  else if up.all (fun seed => pyStartsWith seed "UNIPROT.") then
    (up.map (fun seed => pyReplace seed "UNIPROT." ""), "protein")
  else
    (up, "protein")

/-! ### Canonical seed-list components

The per-family expressions that each submission route stores as the seed
component of its canonical (deduplication) query.
-/

/-- The `seed_proteins` component built by `trustrank_submit`
(`routers/trustrank.py`, line 84):
`sorted([seed.replace("uniprot.", "") for seed in tr.seeds])`. -/
def trustrank_canonical_seeds (seeds : List String) : List String :=
  pySorted (seeds.map (fun seed => pyReplace seed "uniprot." ""))

/-- The `seeds` component built by `diamond_submit`
(`routers/diamond.py`, lines 151-160): `sorted(dr.seeds)` after
`normalise_seeds_and_determine_type`. -/
def diamond_canonical_seeds (seeds : List String) : List String :=
  pySorted (normalise_seeds_and_determine_type seeds).1

/-- Embeds `standardize_list(lst, prefix)` from `routers/validation.py`,
line 39. -/
def standardize_list (lst : List String) (pre : String) : List String :=
  lst.map (fun i => if ¬ pyStartsWith i pre then pre ++ i else i)

/-- Embeds `standardize_drugbank_list` (`routers/validation.py`, line 43). -/
def standardize_drugbank_list (lst : List String) : List String :=
  standardize_list lst "drugbank."

/-- Embeds `standardize_uniprot_list` (`routers/validation.py`, line 47). -/
def standardize_uniprot_list (lst : List String) : List String :=
  standardize_list lst "uniprot."

/-- Embeds `standardize_entrez_list` (`routers/validation.py`, line 51). -/
def standardize_entrez_list (lst : List String) : List String :=
  standardize_list lst "entrez."

/-- Python `sorted(set(l))`: the distinct elements of `l` in ascending
order.  `List.dedup` keeps one copy of each element; sorting erases the
iteration-order difference with Python sets. -/
def pySortedSet (l : List String) : List String := pySorted l.dedup

/-- The `test_drugs` component built by `joint_validation_submit`
(`routers/validation.py`, line 110):
`sorted(set(standardize_drugbank_list(jvr.test_drugs)))`. -/
def joint_validation_canonical_test_drugs (drugs : List String) : List String :=
  pySortedSet (standardize_drugbank_list drugs)

/-- The `module_members` component built by `joint_validation_submit` for
gene members (`routers/validation.py`, line 115):
`sorted(set(standardize_entrez_list(jvr.module_members)))`. -/
def joint_validation_canonical_gene_members (members : List String) : List String :=
  pySortedSet (standardize_entrez_list members)

/-! ### Submission models

Each submission route normalises the request into a canonical query, then,
under the family's collection lock, either finds an existing job with an
equal canonical query (returning its UID unchanged) or inserts a fresh
document with `status = "submitted"` and enqueues the background runner.
`fresh` stands for the `uuid4()` value the route would mint; `tasks` is the
list of job UIDs handed to `background_tasks.add_task`.  A raised
`HTTPException` is returned together with the unchanged state.
-/

/-- A FastAPI `HTTPException(status_code, detail)`. -/
structure HErr where
  status_code : Int
  detail : String
deriving DecidableEq

/-- The fields of `TrustRankRequest` (`routers/trustrank.py`, lines 38-57).
`none` models an omitted (`None`) field; the damping factor is a stored
constant, modelled by `Rat`. -/
structure TrustRankRequest where
  seeds : List String
  damping_factor : Option ℚ
  only_direct_drugs : Option Bool
  only_approved_drugs : Option Bool
  N : Option Int
deriving DecidableEq

/-- The canonical query `trustrank_submit` builds (`routers/trustrank.py`,
lines 83-89) and stores as the deduplication key. -/
structure TrustRankQuery where
  seed_proteins : List String
  damping_factor : ℚ
  only_direct_drugs : Bool
  only_approved_drugs : Bool
  N : Option Int
deriving DecidableEq

/-- The result payload `run_trustrank` assembles from the output file when
`N` is set (`routers/trustrank.py`, lines 195-223): the kept score rows and
the drug-seed edges found in the ranking network. -/
structure TrustRankResults where
  drugs : List (List (String × String))
  edges : List (List String)
deriving DecidableEq

/-- A document of the `trustrank_` collection. -/
structure TrustRankDoc where
  query : TrustRankQuery
  uid : String
  status : String
  error : Option String
  results : Option TrustRankResults
deriving DecidableEq

/-- State touched by the TrustRank routes: the `trustrank_` collection, the
shared `static-ranking` flag of the Redis status map, the background task
queue, and the chronological record of every `status` value written (used to
state the state-machine claims). -/
structure TrustRankState where
  store : List TrustRankDoc
  staticFlag : Option Bool
  tasks : List String
  history : List (String × String)
deriving DecidableEq

/-- Embeds `trustrank_submit` (`routers/trustrank.py`, lines 66-102).
Defaults are substituted before the canonical query is formed
(damping factor `0.85`, both drug switches `True`); `N` has no default. -/
def trustrank_submit (fresh : String) (tr : TrustRankRequest) (st : TrustRankState) :
    Except HErr String × TrustRankState :=
  if tr.seeds = [] then
    (.error ⟨404, "No seeds submitted"⟩, st)
  else
    let query : TrustRankQuery :=
      { seed_proteins := trustrank_canonical_seeds tr.seeds
        damping_factor := tr.damping_factor.getD (85 / 100 : ℚ)
        only_direct_drugs := tr.only_direct_drugs.getD true
        only_approved_drugs := tr.only_approved_drugs.getD true
        N := tr.N }
    match st.store.find? (fun doc => doc.query = query) with
    | some doc => (.ok doc.uid, st)
    | none =>
      (.ok fresh,
        { st with
          store := st.store ++ [⟨query, fresh, "submitted", none, none⟩]
          tasks := st.tasks ++ [fresh]
          history := st.history ++ [(fresh, "submitted")] })

/-- The fields of `DiamondRequest` (`routers/diamond.py`, lines 65-87). -/
structure DiamondRequest where
  seeds : List String
  n : Option Int
  alpha : Option Int
  network : Option String
  edges : Option String
deriving DecidableEq

/-- The canonical query `diamond_submit` builds (`routers/diamond.py`,
lines 159-166). -/
structure DiamondQuery where
  seeds : List String
  seed_type : String
  n : Option Int
  alpha : Int
  network : String
  edges : String
deriving DecidableEq

/-- A document of the `diamond_` collection. -/
structure DiamondDoc where
  query : DiamondQuery
  uid : String
  status : String
deriving DecidableEq

/-- State touched by `diamond_submit`: the `diamond_` collection and the
background task queue. -/
structure DiamondState where
  store : List DiamondDoc
  tasks : List String
deriving DecidableEq

/-- Embeds `diamond_submit` (`routers/diamond.py`, lines 123-180).  Python
`if not dr.n` treats both `None` and `0` as missing; `edges` defaults to
`"all"` before the membership check; `alpha` defaults to `1` and `network`
to `"DEFAULT"` inside the query. -/
def diamond_submit (fresh : String) (dr : DiamondRequest) (st : DiamondState) :
    Except HErr String × DiamondState :=
  if dr.seeds = [] then
    (.error ⟨404, "No seeds submitted"⟩, st)
  else if dr.n = none ∨ dr.n = some 0 then
    (.error ⟨404, "Number of results to return is not specified"⟩, st)
  else
    let normalised := normalise_seeds_and_determine_type dr.seeds
    let edges := dr.edges.getD "all"
    if edges ≠ "all" ∧ edges ≠ "limited" then
      (.error ⟨404, "If specified, edges must be `limited` or `all`"⟩, st)
    else
      let query : DiamondQuery :=
        { seeds := pySorted normalised.1
          seed_type := normalised.2
          n := dr.n
          alpha := dr.alpha.getD 1
          network := dr.network.getD "DEFAULT"
          edges := edges }
      match st.store.find? (fun doc => doc.query = query) with
      | some doc => (.ok doc.uid, st)
      | none =>
        (.ok fresh,
          { store := st.store ++ [⟨query, fresh, "submitted"⟩]
            tasks := st.tasks ++ [fresh] })

/-! ### Static-resource builders (`nedrexapi/common.py`, lines 81-134)

Both builders follow the same shape: acquire the dedicated Redis lock, read
the persisted flag from the shared status map, short-circuit when it is
already `True`, otherwise run the build subprocess and record `True` or
`False` according to its exit code, then release the lock.  The embedding
returns the new flag value, the chronological list of observable actions,
and the value the call returns to its caller (an `Except`, so that a raised
error would be visible as `.error`).
-/

/-- Observable actions of a static-file builder call. -/
inductive StaticEvent where
  | acquire
  | checkFlag (v : Option Bool)
  | runBuild
  | release
deriving DecidableEq

/-- Embeds `generate_ranking_static_files` (`common.py`, lines 81-105).
`buildExit` is the exit code of the `generate_ranking_input_networks.py`
subprocess and `flag` the persisted `static-ranking` entry of the shared
status map (`none` when absent). -/
def generate_ranking_static_files (buildExit : Int) (flag : Option Bool) :
    Option Bool × List StaticEvent × Except String Unit :=
  if flag = some true then
    (flag, [.acquire, .checkFlag flag, .release], .ok ())
  else
    (some (decide (buildExit = 0)),
      [.acquire, .checkFlag flag, .runBuild, .release], .ok ())

/-- Embeds `generate_validation_static_files` (`common.py`, lines 108-134),
identical to the ranking builder except for the lock, flag key and build
script. -/
def generate_validation_static_files (buildExit : Int) (flag : Option Bool) :
    Option Bool × List StaticEvent × Except String Unit :=
  if flag = some true then
    (flag, [.acquire, .checkFlag flag, .release], .ok ())
  else
    (some (decide (buildExit = 0)),
      [.acquire, .checkFlag flag, .runBuild, .release], .ok ())

/-! ### TrustRank runner (`routers/trustrank.py`, lines 133-229)

`run_trustrank` reads the job document, flips it to `running` under the
collection lock, invokes the external `run_trustrank.py` script, and records
`failed` (with a diagnostic including the exit code) or `completed`; when
`N` is truthy it first parses the output file into a result payload.  The
environment supplies the outcome of each external step: the exit codes of
the static-file build and of the ranking script, and the outcome of the
output-file parsing block (whose data lives in the produced file) — either a
payload or a raised exception carried as its message string.
`run_trustrank_wrapper` is the entry point handed to the background task
queue: it catches every exception and records `failed` with the exception
text. -/
structure TrustRankEnv where
  staticExit : Int
  subprocExit : Int
  post : Except String TrustRankResults

/-- Mongo `update_one({"uid": uid}, {"$set": ...}})` on the `trustrank_`
collection: update the first document whose `uid` matches, setting `status`
and, when given, `error` / `results`; report whether a document matched. -/
def trustrankUpdateFirst (uid status : String) (err : Option String)
    (res : Option TrustRankResults) : List TrustRankDoc → List TrustRankDoc × Bool
  | [] => ([], false)
  | doc :: rest =>
    if doc.uid = uid then
      ({ doc with
          status := status
          error := err.elim doc.error some
          results := res.elim doc.results some } :: rest, true)
    else
      let tail := trustrankUpdateFirst uid status err res rest
      (doc :: tail.1, tail.2)

/-- State-level status update: performs `trustrankUpdateFirst` on the store
and, when a document matched, appends the written status to the history. -/
def trustrankSetStatus (uid status : String) (err : Option String)
    (res : Option TrustRankResults) (st : TrustRankState) : TrustRankState :=
  let upd := trustrankUpdateFirst uid status err res st.store
  { st with
    store := upd.1
    history := if upd.2 then st.history ++ [(uid, status)] else st.history }

/-- Embeds `run_trustrank` (`routers/trustrank.py`, lines 142-229).  The
`Except` component is the exception (message) the call raises, if any.  The
call to `generate_ranking_static_files` contributes only its flag update:
on every path the builder returns `.ok ()` (it never raises — see the C7
theorems), so its result needs no inspection here. -/
def run_trustrank (env : TrustRankEnv) (uid : String) (st : TrustRankState) :
    TrustRankState × Except String Unit :=
  let st := { st with
    staticFlag := (generate_ranking_static_files env.staticExit st.staticFlag).1 }
  match st.store.find? (fun doc => doc.uid = uid) with
    | none => (st, .error ("No TrustRank job with UID " ++ uid))
    | some details =>
      let st := trustrankSetStatus uid "running" none none st
      -- seeds are written to a temporary file consumed by the subprocess
      if env.subprocExit ≠ 0 then
        (trustrankSetStatus uid "failed"
          (some ("Process exited with exit code " ++ toString env.subprocExit ++
            " -- please contact API developer.")) none st, .ok ())
      else if details.query.N = none ∨ details.query.N = some 0 then
        (trustrankSetStatus uid "completed" none none st, .ok ())
      else
        match env.post with
        | .error msg => (st, .error msg)
        | .ok results =>
          (trustrankSetStatus uid "completed" none (some results) st, .ok ())

/-- Embeds `run_trustrank_wrapper` (`routers/trustrank.py`, lines 133-139):
every exception raised by `run_trustrank` is caught and recorded as a
`failed` status whose `error` field is the exception text; nothing
propagates further. -/
def run_trustrank_wrapper (env : TrustRankEnv) (uid : String)
    (st : TrustRankState) : TrustRankState × Except String Unit :=
  match run_trustrank env uid st with
  | (st', .ok ()) => (st', .ok ())
  | (st', .error msg) =>
    (trustrankSetStatus uid "failed" (some msg) none st', .ok ())

/-- The status of job `uid` as a client polling `trustrank_status` sees it. -/
def trustrankStatusOf (uid : String) (st : TrustRankState) : Option String :=
  (st.store.find? (fun doc => doc.uid = uid)).map (fun doc => doc.status)

/-- The error field of job `uid`. -/
def trustrankErrorOf (uid : String) (st : TrustRankState) : Option String :=
  (st.store.find? (fun doc => doc.uid = uid)).bind (fun doc => doc.error)

/-- The chronological sequence of status values written for job `uid`. -/
def historyFor (uid : String) (st : TrustRankState) : List String :=
  (st.history.filter (fun p => p.1 = uid)).map (fun p => p.2)

/-! ### Administrative resubmission (`nedrexapi/routers/admin.py`)

`resubmit_job` prunes the stored job document to the family's whitelist of
keys, resets its status to `submitted`, replaces the stored document in
place, and re-enqueues the family's runner.  Documents are modelled as
association lists of field name and BSON value, which is what the key-based
pruning operates on. -/

/-- Values stored in job documents. -/
inductive BsonValue where
  | str (s : String)
  | int (n : Int)
  | bool (b : Bool)
  | rat (q : ℚ)
  | strList (l : List String)
  | null
deriving DecidableEq

/-- A Mongo document: field names with values, in insertion order. -/
abbrev BsonDoc : Type := List (String × BsonValue)

/-- Embeds `KEEP_KEYS` (`routers/admin.py`, lines 32-65): the per-family
whitelist of document fields preserved on resubmission.  Indexing a family
outside this mapping raises `KeyError`, hence the association-list model. -/
def KEEP_KEYS : List (String × List String) :=
  [("validation",
    ["test_drugs", "true_drugs", "permutations", "only_approved_drugs",
     "validation_type", "uid", "status", "module_member_type",
     "module_members", "_id"]),
   ("trustrank",
    ["seed_proteins", "damping_factor", "only_approved_drugs",
     "only_direct_drugs", "N", "uid", "_id"]),
   ("closeness",
    ["seed_proteins", "only_direct_drugs", "only_approved_drugs", "N",
     "uid", "_id"]),
   ("must",
    ["seeds", "seed_type", "network", "hub_penalty", "multiple", "trees",
     "maxit", "uid", "_id"]),
   ("diamond",
    ["seeds", "seed_type", "n", "alpha", "network", "edges", "uid", "_id"]),
   ("graphs",
    ["nodes", "edges", "ppi_evidence", "ppi_self_loops", "taxid",
     "drug_groups", "concise", "include_omim", "disgenet_threshold",
     "use_omim_ids", "split_drug_types", "uid", "_id"]),
   ("bicon",
    ["sha256", "lg_min", "lg_max", "network", "submitted_filename",
     "filename", "uid", "_id"])]

/-- The dict comprehension `{k: v for k, v in doc.items() if k in keep}`:
keep the fields whose name lies in `keep`, preserving order. -/
def pyFilterKeys (keep : List String) (doc : BsonDoc) : BsonDoc :=
  doc.filter (fun kv => kv.1 ∈ keep)

/-- Python `doc[k] = v` on a dict: overwrite the first binding of `k` in
place, or append a new binding. -/
def pySetItem (k : String) (v : BsonValue) : BsonDoc → BsonDoc
  | [] => [(k, v)]
  | kv :: rest =>
    if kv.1 = k then (k, v) :: rest else kv :: pySetItem k v rest

/-- Exceptions `resubmit_job` can raise. -/
inductive PyErr where
  | attributeError
  | keyError
deriving DecidableEq

/-- State touched by `resubmit_job` for a given `job_type`: the collection
`get_api_collection(f"{job_type}_")` and the background task queue, recorded
as (wrapper name, uid) pairs. -/
structure AdminState where
  coll : List BsonDoc
  tasks : List (String × String)
deriving DecidableEq

/-- Association-list field access, used for Python `d[k]` /
`KEEP_KEYS[job_type]` and Mongo field matching: the value of the first
binding of `k`. -/
def assocGet {β : Type} (k : String) : List (String × β) → Option β
  | [] => none
  | kv :: rest => if kv.1 = k then some kv.2 else assocGet k rest

/-- Mongo `find_one({"uid": uid})`: the first document whose `uid` field
equals `uid`. -/
def findOneUid (uid : String) (coll : List BsonDoc) : Option BsonDoc :=
  coll.find? (fun doc => assocGet "uid" doc = some (.str uid))

/-- Mongo `replace_one({"uid": uid}, new)`: replace the first document whose
`uid` field equals `uid` by `new`. -/
def replaceOneUid (uid : String) (new : BsonDoc) : List BsonDoc → List BsonDoc
  | [] => []
  | doc :: rest =>
    if assocGet "uid" doc = some (.str uid) then new :: rest
    else doc :: replaceOneUid uid new rest

/-- The `if job_type == ... background_tasks.add_task(...)` chain of
`resubmit_job` (`routers/admin.py`, lines 141-159): which runner wrapper is
enqueued.  For the validation family the choice depends on the (pruned)
document's `validation_type`; an absent `validation_type` raises `KeyError`
and any other value enqueues nothing. -/
def resubmitDispatch (job_type : String) (doc : BsonDoc) :
    Except PyErr (Option String) :=
  if job_type = "bicon" then .ok (some "run_bicon_wrapper")
  else if job_type = "closeness" then .ok (some "run_closeness_wrapper")
  else if job_type = "diamond" then .ok (some "run_diamond_wrapper")
  else if job_type = "graphs" then .ok (some "graph_constructor_wrapper")
  else if job_type = "trustrank" then .ok (some "run_trustrank_wrapper")
  else if job_type = "must" then .ok (some "run_must_wrapper")
  else if job_type = "validation" then
    match assocGet "validation_type" doc with
    | none => .error .keyError
    | some (.str "module") => .ok (some "module_validation_wrapper")
    | some (.str "drug") => .ok (some "drug_validation_wrapper")
    | some (.str "joint") => .ok (some "joint_validation_wrapper")
    | some _ => .ok none
  else .ok none

/-- Embeds `resubmit_job` (`routers/admin.py`, lines 132-161).  A missing
document raises `AttributeError` (`doc.items()` on `None`); a `job_type`
outside `KEEP_KEYS` raises `KeyError`. -/
def resubmit_job (job_type uid : String) (st : AdminState) :
    Except PyErr String × AdminState :=
  match findOneUid uid st.coll with
  | none => (.error .attributeError, st)
  | some doc =>
    match assocGet job_type KEEP_KEYS with
    | none => (.error .keyError, st)
    | some keep =>
      let doc2 := pySetItem "status" (.str "submitted") (pyFilterKeys keep doc)
      match resubmitDispatch job_type doc2 with
      | .error e => (.error e, { st with coll := replaceOneUid uid doc2 st.coll })
      | .ok task? =>
        (.ok uid,
          { coll := replaceOneUid uid doc2 st.coll
            tasks := st.tasks ++ (task?.elim [] (fun t => [(t, uid)])) })

/-! ### Collection locks (C9)

Each job family serialises its find-or-create and status updates with a
module-level lock.  Most routers use a `pottery.Redlock` keyed in the shared
Redis instance; `diamond.py` (line 33) and `graph.py` (line 26) instead call
`multiprocessing.Lock()` at import time.  A `Redlock` is held in a Redis
server reachable by every worker process, so it excludes across process
boundaries; a `multiprocessing.Lock` created anew in each worker process
that imports the module is private to that process (it is shared only with
processes forked after its creation), so two independent workers each see
their own unlocked copy. -/

/-- The lock implementations that appear in the sources. -/
inductive LockImpl where
  | redlock (key : String)
  | multiprocessingLock
deriving DecidableEq

/-- Whether a lock implementation excludes across worker-process
boundaries. -/
def crossProcess : LockImpl → Bool
  | .redlock _ => true
  | .multiprocessingLock => false

/-- The job families that own a collection lock. -/
inductive JobFamily where
  | bicon
  | closeness
  | diamond
  | domino
  | graph
  | kpm
  | must
  | robust
  | trustrank
  | validation
deriving DecidableEq

/-- All job families. -/
def allJobFamilies : List JobFamily :=
  [.bicon, .closeness, .diamond, .domino, .graph, .kpm, .must, .robust,
   .trustrank, .validation]

/-- The collection lock each family's router actually constructs and uses
(`routers/bicon.py:32`, `closeness.py:29`, `diamond.py:33`, `domino.py:26`,
`graph.py:26`, `kpm.py:28`, `must.py:24`, `robust.py:27`, `trustrank.py:33`,
`validation.py:21`). -/
def routerCollectionLock : JobFamily → LockImpl
  | .bicon => .redlock "bicon_collection_lock"
  | .closeness => .redlock "closeness_collection_lock"
  | .diamond => .multiprocessingLock
  | .domino => .redlock "domino_collection_lock"
  | .graph => .multiprocessingLock
  | .kpm => .redlock "kpm_collection_lock"
  | .must => .redlock "must_collection_lock"
  | .robust => .redlock "robust_collection_lock"
  | .trustrank => .redlock "trustrank_collection_lock"
  | .validation => .redlock "validation_collection_lock"

/-- The collection locks defined centrally in `common.py` (lines 27-39) —
all Redis-backed, including the diamond and graph ones that the respective
routers shadow with local `multiprocessing.Lock()` instances. -/
def commonCollectionLock : JobFamily → LockImpl
  | .bicon => .redlock "bicon_collection_lock"
  | .closeness => .redlock "closeness_collection_lock"
  | .diamond => .redlock "diamond_collection_lock"
  | .domino => .redlock "domino_collection_lock"
  | .graph => .redlock "graph_collection_lock"
  | .kpm => .redlock "kpm_collection_lock"
  | .must => .redlock "must_collection_lock"
  | .robust => .redlock "robust_collection_lock"
  | .trustrank => .redlock "trustrank_collection_lock"
  | .validation => .redlock "validation_collection_lock"

/-! ### Claim-level definitions

Equivalences of logical requests (from the spec wording for claim C1) and
the formalised statements of claims C4 and C7, to be compared with the
source-derived definitions above.
-/

/-- Modelled from the spec: two TrustRank submissions are the same logical
request when their seed lists are permutations of each other and every
optional field agrees after substituting its documented default
(damping factor `0.85`, both drug switches `True`; `N` has no default). -/
def trustrankEquivalent (a b : TrustRankRequest) : Prop :=
  a.seeds.Perm b.seeds ∧
  a.damping_factor.getD (85 / 100 : ℚ) = b.damping_factor.getD (85 / 100 : ℚ) ∧
  a.only_direct_drugs.getD true = b.only_direct_drugs.getD true ∧
  a.only_approved_drugs.getD true = b.only_approved_drugs.getD true ∧
  a.N = b.N

/-- Modelled from the spec: two DIAMOnD submissions are the same logical
request when their seed lists are permutations of each other and every
optional field agrees after substituting its documented default
(`alpha` `1`, `network` `"DEFAULT"`, `edges` `"all"`). -/
def diamondEquivalent (a b : DiamondRequest) : Prop :=
  a.seeds.Perm b.seeds ∧
  a.n = b.n ∧
  a.alpha.getD 1 = b.alpha.getD 1 ∧
  a.network.getD "DEFAULT" = b.network.getD "DEFAULT" ∧
  a.edges.getD "all" = b.edges.getD "all"

/-- Formalises claim C4 as stated: in every job family the canonical seed
component is the duplicate-free sorted form of the submitted list, so a
submission and any version of it with duplicated entries canonicalise to
the same `Nodup` list. -/
def canonicalSeedsDedupSortedProp : Prop :=
  (∀ l : List String, (trustrank_canonical_seeds l).Nodup ∧
    trustrank_canonical_seeds l = trustrank_canonical_seeds l.dedup) ∧
  (∀ l : List String, (diamond_canonical_seeds l).Nodup ∧
    diamond_canonical_seeds l = diamond_canonical_seeds l.dedup) ∧
  (∀ l : List String, (joint_validation_canonical_test_drugs l).Nodup ∧
    joint_validation_canonical_test_drugs l =
      joint_validation_canonical_test_drugs l.dedup)

/-- Whether an event trace contains a flag check strictly before the first
lock acquisition. -/
def checksFlagBeforeAcquire (evts : List StaticEvent) : Bool :=
  (evts.takeWhile (fun e => decide (e ≠ .acquire))).any
    (fun e => match e with | .checkFlag _ => true | _ => false)

/-- Formalises claim C7 as stated: each static-resource builder checks the
persisted flag before acquiring its lock (and re-checks it after), and a
failed build surfaces to the caller as a raised error rather than a silent
return. -/
def staticBuilderClaimProp : Prop :=
  (∀ (code : Int) (flag : Option Bool),
    checksFlagBeforeAcquire (generate_ranking_static_files code flag).2.1 = true) ∧
  (∀ (code : Int) (flag : Option Bool),
    checksFlagBeforeAcquire (generate_validation_static_files code flag).2.1 = true) ∧
  (∀ (code : Int) (flag : Option Bool), flag ≠ some true → code ≠ 0 →
    ∃ msg, (generate_ranking_static_files code flag).2.2 = .error msg) ∧
  (∀ (code : Int) (flag : Option Bool), flag ≠ some true → code ≠ 0 →
    ∃ msg, (generate_validation_static_files code flag).2.2 = .error msg)

/-- Formalises claim C2 for the exception case, as stated: whenever the
runner raises an exception (its output-processing step fails with text `m`)
on a stored job with a truthy `N` and a clean subprocess exit, the final
recorded status is `failed` and the recorded `error` field is non-empty. -/
def runnerNonEmptyErrorProp : Prop :=
  ∀ (env : TrustRankEnv) (uid : String) (st : TrustRankState) (d : TrustRankDoc),
    st.store.find? (fun x => x.uid = uid) = some d →
    ∀ m, env.post = .error m →
    ¬(d.query.N = none ∨ d.query.N = some 0) →
    env.subprocExit = 0 →
    trustrankStatusOf uid (run_trustrank_wrapper env uid st).1 = some "failed" ∧
    ∃ e, trustrankErrorOf uid (run_trustrank_wrapper env uid st).1 = some e ∧
      e ≠ ""

/-! ### Shared lemmas -/

theorem perm_all_eq {α : Type} {l₁ l₂ : List α} (h : l₁.Perm l₂) (f : α → Bool) :
    l₁.all f = l₂.all f := by
  induction h with
  | nil => rfl
  | cons x _ ih => simp [List.all_cons, ih]
  | swap x y l => simp only [List.all_cons]; rw [Bool.and_left_comm]
  | trans _ _ ih₁ ih₂ => exact ih₁.trans ih₂

theorem normalise_perm {s₁ s₂ : List String} (h : s₁.Perm s₂) :
    (normalise_seeds_and_determine_type s₁).1.Perm
      (normalise_seeds_and_determine_type s₂).1 ∧
    (normalise_seeds_and_determine_type s₁).2 =
      (normalise_seeds_and_determine_type s₂).2 := by
  have hm : (s₁.map pyUpper).Perm (s₂.map pyUpper) := h.map pyUpper
  simp only [normalise_seeds_and_determine_type,
    perm_all_eq hm (fun seed => pyStartsWith seed "ENTREZ."),
    perm_all_eq hm pyIsNumeric,
    perm_all_eq hm (fun seed => pyStartsWith seed "UNIPROT.")]
  split_ifs <;>
    first
      | exact ⟨hm, rfl⟩
      | exact ⟨hm.map _, rfl⟩

theorem trustrank_canonical_seeds_perm {s₁ s₂ : List String} (h : s₁.Perm s₂) :
    trustrank_canonical_seeds s₁ = trustrank_canonical_seeds s₂ :=
  pySorted_eq_of_perm (h.map _)

theorem diamond_canonical_seeds_perm {s₁ s₂ : List String} (h : s₁.Perm s₂) :
    diamond_canonical_seeds s₁ = diamond_canonical_seeds s₂ :=
  pySorted_eq_of_perm (normalise_perm h).1

theorem normalise_fst_length (s : List String) :
    (normalise_seeds_and_determine_type s).1.length = s.length := by
  simp only [normalise_seeds_and_determine_type]
  split_ifs <;> simp

/-! ### Claim C4 -/

/-- Claim C4 as stated is false on the code: the TrustRank canonical seed
component of the duplicated list `["P12345", "P12345"]` is
`["P12345", "P12345"]` itself — sorted but not duplicate-free — because
`trustrank_submit` (like `diamond_submit`) sorts without deduplicating; only
the validation family passes its lists through `set`. -/
theorem canonical_seeds_not_always_deduplicated :
    ¬ canonicalSeedsDedupSortedProp := by
  intro h
  exact absurd (h.1 ["P12345", "P12345"]).1 (by decide)

/-- Claim C4, amended: every family sorts its canonical identifier list
lexicographically, so permutations (and, for validation, duplicated
variants) of the submitted list canonicalise identically; the validation
family stores a duplicate-free list, while the TrustRank and DIAMOnD
families preserve the submitted multiplicity (the canonical list keeps the
submitted length). -/
theorem canonical_seed_lists_sorted_order_independent :
    (∀ l₁ l₂ : List String, l₁.Perm l₂ →
      trustrank_canonical_seeds l₁ = trustrank_canonical_seeds l₂) ∧
    (∀ l₁ l₂ : List String, l₁.Perm l₂ →
      diamond_canonical_seeds l₁ = diamond_canonical_seeds l₂) ∧
    (∀ l₁ l₂ : List String, l₁.Perm l₂ →
      joint_validation_canonical_test_drugs l₁ =
        joint_validation_canonical_test_drugs l₂) ∧
    (∀ l : List String, List.Sorted pyLe (trustrank_canonical_seeds l)) ∧
    (∀ l : List String, List.Sorted pyLe (diamond_canonical_seeds l)) ∧
    (∀ l : List String,
      List.Sorted pyLe (joint_validation_canonical_test_drugs l)) ∧
    (∀ l : List String, (joint_validation_canonical_test_drugs l).Nodup) ∧
    (∀ l : List String, (trustrank_canonical_seeds l).length = l.length) ∧
    (∀ l : List String, (diamond_canonical_seeds l).length = l.length) := by
  refine ⟨fun _ _ h => trustrank_canonical_seeds_perm h,
    fun _ _ h => diamond_canonical_seeds_perm h,
    fun _ _ h => pySorted_eq_of_perm (((h.map _)).dedup),
    fun l => pySorted_sorted _,
    fun l => pySorted_sorted _,
    fun l => pySorted_sorted _,
    fun l => ((pySorted_perm _).symm).nodup (List.nodup_dedup _),
    fun l => ?_, fun l => ?_⟩
  · simp [trustrank_canonical_seeds, pySorted_length]
  · simp [diamond_canonical_seeds, pySorted_length, normalise_fst_length]

/-- Witness for the amended C4 theorem at concrete inputs. -/
theorem canonical_seed_lists_sorted_order_independent_witness :
    trustrank_canonical_seeds ["uniprot.P2", "P1"] =
      trustrank_canonical_seeds ["P1", "uniprot.P2"] ∧
    diamond_canonical_seeds ["673", "2717"] =
      diamond_canonical_seeds ["2717", "673"] ∧
    joint_validation_canonical_test_drugs ["DB01", "drugbank.DB00"] =
      joint_validation_canonical_test_drugs ["drugbank.DB00", "DB01"] :=
  ⟨canonical_seed_lists_sorted_order_independent.1 _ _ (by decide),
   canonical_seed_lists_sorted_order_independent.2.1 _ _ (by decide),
   canonical_seed_lists_sorted_order_independent.2.2.1 _ _ (by decide)⟩

/-! ### Claim C5 -/

/-- Claim C5: `normalise_seeds_and_determine_type` uppercases every seed and
then behaves exactly as the spec heuristic describes: all entries carrying
the gene-namespace prefix, or all purely numeric, give type `gene`; all
carrying the protein-namespace prefix give type `protein`; every other case
gives type `protein` with nothing stripped; the recognized namespace prefix
(`ENTREZ.` / `UNIPROT.` after uppercasing) is removed exactly in the
all-prefixed cases.  Both sides are pure functions of the seed list, so the
normalisation is deterministic. -/
theorem normalise_seeds_matches_spec_heuristic :
    ∀ seeds : List String,
      normalise_seeds_and_determine_type seeds =
        normalise_seeds_heuristic_spec seeds := by
  intro seeds
  unfold normalise_seeds_and_determine_type normalise_seeds_heuristic_spec
  by_cases hE : (seeds.map pyUpper).all (fun seed => pyStartsWith seed "ENTREZ.") <;>
    by_cases hN : (seeds.map pyUpper).all pyIsNumeric <;>
      simp [hE, hN]

/-! ### Claim C1 -/

/-- Claim C1: submission is idempotent per canonical request.  For both the
TrustRank and the DIAMOnD family, a second submission of the same logical
request — the seed list permuted, optional fields omitted on one side and
given their documented default on the other — returns the UID of the first
submission and leaves the state (job store, task queue, history) untouched,
so the background runner is enqueued at most once, by the first submission
alone. -/
theorem idempotent_submission :
    (∀ (u₁ u₂ : String) (tr₁ tr₂ : TrustRankRequest) (st : TrustRankState)
      (uid₁ : String) (st₁ : TrustRankState),
      trustrankEquivalent tr₁ tr₂ → tr₁.seeds ≠ [] →
      trustrank_submit u₁ tr₁ st = (.ok uid₁, st₁) →
      trustrank_submit u₂ tr₂ st₁ = (.ok uid₁, st₁) ∧
        (st₁.tasks = st.tasks ∨ st₁.tasks = st.tasks ++ [u₁])) ∧
    (∀ (u₁ u₂ : String) (dr₁ dr₂ : DiamondRequest) (st : DiamondState)
      (uid₁ : String) (st₁ : DiamondState),
      diamondEquivalent dr₁ dr₂ → dr₁.seeds ≠ [] →
      diamond_submit u₁ dr₁ st = (.ok uid₁, st₁) →
      diamond_submit u₂ dr₂ st₁ = (.ok uid₁, st₁) ∧
        (st₁.tasks = st.tasks ∨ st₁.tasks = st.tasks ++ [u₁])) := by
  constructor
  · intro u₁ u₂ tr₁ tr₂ st uid₁ st₁ hequiv hseeds hsub
    obtain ⟨hp, hd, hdd, ha, hN⟩ := hequiv
    have hseeds₂ : tr₂.seeds ≠ [] := fun h => hseeds (List.Perm.eq_nil (h ▸ hp))
    have h1 : trustrank_canonical_seeds tr₂.seeds = trustrank_canonical_seeds tr₁.seeds :=
      (trustrank_canonical_seeds_perm hp).symm
    simp only [trustrank_submit, hseeds, if_false, hseeds₂, ite_false] at hsub ⊢
    rw [h1, hd.symm, hdd.symm, ha.symm, hN.symm] at *
    revert hsub
    cases hfind : st.store.find? (fun doc =>
        doc.query = ⟨trustrank_canonical_seeds tr₁.seeds,
          tr₁.damping_factor.getD (85 / 100 : ℚ), tr₁.only_direct_drugs.getD true,
          tr₁.only_approved_drugs.getD true, tr₁.N⟩) with
    | some doc =>
      intro hsub
      obtain ⟨h₂, h₃⟩ := Prod.mk.injEq .. ▸ hsub
      cases Except.ok.injEq .. ▸ h₂
      cases h₃
      simp [hfind]
    | none =>
      intro hsub
      obtain ⟨h₂, h₃⟩ := Prod.mk.injEq .. ▸ hsub
      cases Except.ok.injEq .. ▸ h₂
      cases h₃
      rw [List.find?_append, hfind]
      simp
  · intro u₁ u₂ dr₁ dr₂ st uid₁ st₁ hequiv hseeds hsub
    obtain ⟨hp, hn, ha, hw, he⟩ := hequiv
    have hseeds₂ : dr₂.seeds ≠ [] := fun h => hseeds (List.Perm.eq_nil (h ▸ hp))
    have h1 : pySorted (normalise_seeds_and_determine_type dr₂.seeds).1 =
        pySorted (normalise_seeds_and_determine_type dr₁.seeds).1 :=
      (pySorted_eq_of_perm (normalise_perm hp).1).symm
    have h2 : (normalise_seeds_and_determine_type dr₂.seeds).2 =
        (normalise_seeds_and_determine_type dr₁.seeds).2 :=
      (normalise_perm hp).2.symm
    simp only [diamond_submit, hseeds, if_false, hseeds₂, ite_false] at hsub ⊢
    rw [h1, h2, hn.symm, ha.symm, hw.symm, he.symm] at *
    revert hsub
    by_cases hnn : dr₁.n = none ∨ dr₁.n = some 0
    · simp [hnn]
    simp only [hnn, ite_false]
    by_cases hed : dr₁.edges.getD "all" ≠ "all" ∧ dr₁.edges.getD "all" ≠ "limited"
    · simp [hed]
    simp only [hed, ite_false]
    cases hfind : st.store.find? (fun doc =>
        doc.query = ⟨pySorted (normalise_seeds_and_determine_type dr₁.seeds).1,
          (normalise_seeds_and_determine_type dr₁.seeds).2, dr₁.n,
          dr₁.alpha.getD 1, dr₁.network.getD "DEFAULT", dr₁.edges.getD "all"⟩) with
    | some doc =>
      intro hsub
      obtain ⟨h₂, h₃⟩ := Prod.mk.injEq .. ▸ hsub
      cases Except.ok.injEq .. ▸ h₂
      cases h₃
      simp [hfind]
    | none =>
      intro hsub
      obtain ⟨h₂, h₃⟩ := Prod.mk.injEq .. ▸ hsub
      cases Except.ok.injEq .. ▸ h₂
      cases h₃
      rw [List.find?_append, hfind]
      simp

/-- Witness for C1: a reordered TrustRank request with defaults spelled out,
and a reordered DIAMOnD request with defaults spelled out, each resubmitted
after a first submission into an empty store, return the first UID and leave
the state unchanged. -/
theorem idempotent_submission_witness :
    trustrank_submit "u2"
      ⟨["P1", "uniprot.P2"], some (85 / 100 : ℚ), some true, some true, none⟩
      ⟨[⟨⟨["P1", "P2"], 85 / 100, true, true, none⟩, "u1", "submitted", none, none⟩],
        none, ["u1"], [("u1", "submitted")]⟩ =
      (.ok "u1",
        ⟨[⟨⟨["P1", "P2"], 85 / 100, true, true, none⟩, "u1", "submitted", none, none⟩],
          none, ["u1"], [("u1", "submitted")]⟩) ∧
    diamond_submit "u2" ⟨["673", "2717"], some 5, some 1, some "DEFAULT", some "all"⟩
      ⟨[⟨⟨["2717", "673"], "gene", some 5, 1, "DEFAULT", "all"⟩, "u1", "submitted"⟩],
        ["u1"]⟩ =
      (.ok "u1",
        ⟨[⟨⟨["2717", "673"], "gene", some 5, 1, "DEFAULT", "all"⟩, "u1", "submitted"⟩],
          ["u1"]⟩) := by
  constructor
  · exact (idempotent_submission.1 "u1" "u2"
      ⟨["uniprot.P2", "P1"], none, none, none, none⟩
      ⟨["P1", "uniprot.P2"], some (85 / 100 : ℚ), some true, some true, none⟩
      ⟨[], none, [], []⟩ "u1" _
      ⟨List.Perm.swap "P1" "uniprot.P2" [], rfl, rfl, rfl, rfl⟩
      (by decide) rfl).1
  · exact (idempotent_submission.2 "u1" "u2"
      ⟨["2717", "673"], some 5, none, none, none⟩
      ⟨["673", "2717"], some 5, some 1, some "DEFAULT", some "all"⟩
      ⟨[], []⟩ "u1" _
      ⟨List.Perm.swap "673" "2717" [], rfl, rfl, rfl, rfl⟩
      (by decide) rfl).1

/-! ### Claim C6 -/

/-- Claim C6: a submission with an empty seed list, or with an `edges` value
outside the fixed set `{all, limited}`, fails synchronously with a client
error naming the problem, and the returned state is exactly the input state:
nothing is inserted in the job store and no background task is enqueued. -/
theorem invalid_submission_rejected_without_job :
    (∀ (u : String) (tr : TrustRankRequest) (st : TrustRankState),
      tr.seeds = [] →
      trustrank_submit u tr st = (.error ⟨404, "No seeds submitted"⟩, st)) ∧
    (∀ (u : String) (dr : DiamondRequest) (st : DiamondState),
      dr.seeds = [] →
      diamond_submit u dr st = (.error ⟨404, "No seeds submitted"⟩, st)) ∧
    (∀ (u : String) (dr : DiamondRequest) (st : DiamondState) (e : String),
      dr.seeds ≠ [] → ¬(dr.n = none ∨ dr.n = some 0) →
      dr.edges = some e → e ≠ "all" → e ≠ "limited" →
      diamond_submit u dr st =
        (.error ⟨404, "If specified, edges must be `limited` or `all`"⟩, st)) := by
  refine ⟨fun u tr st h => ?_, fun u dr st h => ?_, fun u dr st e hs hn he h₁ h₂ => ?_⟩
  · simp [trustrank_submit, h]
  · simp [diamond_submit, h]
  · simp [diamond_submit, hs, hn, he, h₁, h₂]

/-- Witness for C6 at concrete requests: an empty TrustRank seed list, an
empty DIAMOnD seed list, and a DIAMOnD request with `edges = "some"`. -/
theorem invalid_submission_rejected_without_job_witness :
    trustrank_submit "u" ⟨[], none, none, none, none⟩ ⟨[], none, [], []⟩ =
      (.error ⟨404, "No seeds submitted"⟩, ⟨[], none, [], []⟩) ∧
    diamond_submit "u" ⟨[], some 5, none, none, none⟩ ⟨[], []⟩ =
      (.error ⟨404, "No seeds submitted"⟩, ⟨[], []⟩) ∧
    diamond_submit "u" ⟨["2717"], some 5, none, none, some "some"⟩ ⟨[], []⟩ =
      (.error ⟨404, "If specified, edges must be `limited` or `all`"⟩, ⟨[], []⟩) :=
  ⟨invalid_submission_rejected_without_job.1 "u" _ _ rfl,
   invalid_submission_rejected_without_job.2.1 "u" _ _ rfl,
   invalid_submission_rejected_without_job.2.2 "u" _ _ "some" (by decide)
     (by decide) rfl (by decide) (by decide)⟩

/-! ### Claim C7 -/

/-- Claim C7 as stated is false on the code: with the flag unset and a
failing build (exit code 1), `generate_ranking_static_files` performs no
flag check before acquiring its lock (it acquires first and checks exactly
once, under the lock), and it returns normally instead of raising — the
failure is only logged and recorded as a `False` flag. -/
theorem static_builder_not_double_checked_and_silent_on_failure :
    ¬ staticBuilderClaimProp := by
  intro h
  exact absurd (h.1 1 none) (by decide)

/-- Claim C7, amended: each static-file builder acquires its dedicated lock
first and then checks the persisted flag exactly once, under the lock; when
the flag is already `True` it releases and returns without building; when it
is not, it runs the build subprocess and records the flag as `True` exactly
when the subprocess exits zero and as `False` otherwise, so a later call
retries the build; in every case the call returns normally — a failed build
is not raised to the caller. -/
theorem static_builder_single_check_under_lock_flag_tracks_exit :
    ∀ (code : Int) (flag : Option Bool),
      ((generate_ranking_static_files code flag).2.2 = .ok () ∧
        (generate_validation_static_files code flag).2.2 = .ok ()) ∧
      ((generate_ranking_static_files code flag).2.1.head? = some .acquire ∧
        (generate_ranking_static_files code flag).2.1.getLast? = some .release ∧
        StaticEvent.checkFlag flag ∈ (generate_ranking_static_files code flag).2.1 ∧
        (generate_validation_static_files code flag).2.1.head? = some .acquire ∧
        (generate_validation_static_files code flag).2.1.getLast? = some .release ∧
        StaticEvent.checkFlag flag ∈ (generate_validation_static_files code flag).2.1) ∧
      (flag = some true →
        (generate_ranking_static_files code flag).1 = flag ∧
        StaticEvent.runBuild ∉ (generate_ranking_static_files code flag).2.1 ∧
        (generate_validation_static_files code flag).1 = flag ∧
        StaticEvent.runBuild ∉ (generate_validation_static_files code flag).2.1) ∧
      (flag ≠ some true →
        StaticEvent.runBuild ∈ (generate_ranking_static_files code flag).2.1 ∧
        ((generate_ranking_static_files code flag).1 = some true ↔ code = 0) ∧
        (code ≠ 0 → (generate_ranking_static_files code flag).1 = some false) ∧
        StaticEvent.runBuild ∈ (generate_validation_static_files code flag).2.1 ∧
        ((generate_validation_static_files code flag).1 = some true ↔ code = 0) ∧
        (code ≠ 0 → (generate_validation_static_files code flag).1 = some false)) := by
  intro code flag
  by_cases hf : flag = some true <;>
    simp [generate_ranking_static_files, generate_validation_static_files, hf]

/-- Witness for the amended C7 theorem: a failing first-time build (exit
code 1, flag absent) records the flag as `False` and still returns
normally; a pre-built flag short-circuits without building. -/
theorem static_builder_single_check_witness :
    (generate_ranking_static_files 1 none).1 = some false ∧
    (generate_ranking_static_files 1 none).2.2 = .ok () ∧
    StaticEvent.runBuild ∉ (generate_ranking_static_files 0 (some true)).2.1 :=
  ⟨((static_builder_single_check_under_lock_flag_tracks_exit 1 none).2.2.2
      (by decide)).2.2.1 (by decide),
   (static_builder_single_check_under_lock_flag_tracks_exit 1 none).1.1,
   ((static_builder_single_check_under_lock_flag_tracks_exit 0 (some true)).2.2.1
      rfl).2.2.2⟩

/-! ### Claim C9 -/

/-- Claim C9 concerns the lock configuration: the DIAMOnD (and graph-build)
collection lock is a `multiprocessing.Lock()` created independently in each
worker process — not a lock shared across process boundaries — while every
other family, and the shadowed definitions in `common.py` (including an
unused Redis lock for the diamond collection), use Redis-backed `Redlock`
instances that do exclude across processes. -/
theorem diamond_collection_lock_not_cross_process :
    crossProcess (routerCollectionLock .diamond) = false ∧
    crossProcess (routerCollectionLock .graph) = false ∧
    commonCollectionLock .diamond = .redlock "diamond_collection_lock" ∧
    (allJobFamilies.filter
        (fun f => decide (f ≠ .diamond ∧ f ≠ .graph))).all
      (fun f => crossProcess (routerCollectionLock f)) = true ∧
    allJobFamilies.all (fun f => crossProcess (commonCollectionLock f)) = true := by
  decide

/-! ### Lemmas on documents and resubmission -/

theorem mem_of_assocGet {β : Type} {k : String} {v : β} :
    ∀ {l : List (String × β)}, assocGet k l = some v → (k, v) ∈ l := by
  intro l
  induction l with
  | nil => intro h; cases h
  | cons hd tl ih =>
    intro h
    rw [assocGet] at h
    by_cases hk : hd.1 = k
    · rw [if_pos hk] at h
      cases h
      cases hk
      exact List.mem_cons_self _ _
    · rw [if_neg hk] at h
      exact List.mem_cons_of_mem _ (ih h)

theorem assocGet_pyFilterKeys (keep : List String) (doc : BsonDoc) (k : String) :
    assocGet k (pyFilterKeys keep doc) =
      if k ∈ keep then assocGet k doc else none := by
  induction doc with
  | nil => simp [pyFilterKeys, assocGet]
  | cons hd tl ih =>
    by_cases hmem : hd.1 ∈ keep <;> by_cases hk : hd.1 = k <;>
      simp_all [pyFilterKeys, assocGet, List.filter_cons]

theorem assocGet_pySetItem_self (k : String) (v : BsonValue) (d : BsonDoc) :
    assocGet k (pySetItem k v d) = some v := by
  induction d with
  | nil => simp [pySetItem, assocGet]
  | cons hd tl ih =>
    by_cases hk : hd.1 = k <;> simp_all [pySetItem, assocGet]

theorem assocGet_pySetItem_other {k k₁ : String} (h : k₁ ≠ k) (v : BsonValue)
    (d : BsonDoc) : assocGet k₁ (pySetItem k v d) = assocGet k₁ d := by
  induction d with
  | nil => simp [pySetItem, assocGet, Ne.symm h]
  | cons hd tl ih =>
    by_cases hk : hd.1 = k <;> by_cases hk₁ : hd.1 = k₁ <;>
      simp_all [pySetItem, assocGet, Ne.symm h]

theorem keys_pySetItem {k k₁ : String} {v : BsonValue} {d : BsonDoc}
    (h : k₁ ∈ (pySetItem k v d).map Prod.fst) :
    k₁ = k ∨ k₁ ∈ d.map Prod.fst := by
  induction d with
  | nil => simpa [pySetItem] using h
  | cons hd tl ih =>
    by_cases hk : hd.1 = k
    · rw [pySetItem, if_pos hk] at h
      simp only [List.map_cons, List.mem_cons] at h ⊢
      tauto
    · rw [pySetItem, if_neg hk] at h
      simp only [List.map_cons, List.mem_cons] at h ⊢
      rcases h with h₂ | h₂
      · exact .inr (.inl h₂)
      · rcases ih h₂ with h₃ | h₃
        · exact .inl h₃
        · exact .inr (.inr h₃)

theorem keys_pyFilterKeys {keep : List String} {doc : BsonDoc} {k : String}
    (h : k ∈ (pyFilterKeys keep doc).map Prod.fst) : k ∈ keep := by
  rcases List.mem_map.mp h with ⟨kv, hkv, rfl⟩
  rw [pyFilterKeys] at hkv
  exact of_decide_eq_true (List.mem_filter.mp hkv).2

theorem replaceOneUid_spec {uid : String} {coll : List BsonDoc} {doc new : BsonDoc}
    (hfind : findOneUid uid coll = some doc)
    (hnew : assocGet "uid" new = some (.str uid)) :
    findOneUid uid (replaceOneUid uid new coll) = some new ∧
    (replaceOneUid uid new coll).length = coll.length ∧
    (replaceOneUid uid new coll).map (fun d => assocGet "uid" d) =
      coll.map (fun d => assocGet "uid" d) := by
  induction coll with
  | nil => cases hfind
  | cons hd tl ih =>
    by_cases hp : assocGet "uid" hd = some (.str uid)
    · have h₁ : replaceOneUid uid new (hd :: tl) = new :: tl := by
        rw [replaceOneUid, if_pos hp]
      refine ⟨?_, by simp [h₁], by simp [h₁, hnew, hp]⟩
      rw [h₁, findOneUid, List.find?_cons_of_pos _ (by simpa using hnew)]
    · have h₀ : findOneUid uid tl = some doc := by
        rw [findOneUid] at hfind
        rwa [List.find?_cons_of_neg _ (by simpa using hp)] at hfind
      obtain ⟨ih₁, ih₂, ih₃⟩ := ih h₀
      have h₁ : replaceOneUid uid new (hd :: tl) = hd :: replaceOneUid uid new tl := by
        rw [replaceOneUid, if_neg hp]
      refine ⟨?_, by simp [h₁, ih₂], by simp [h₁, ih₃]⟩
      rw [h₁, findOneUid, List.find?_cons_of_neg _ (by simpa using hp)]
      exact ih₁

theorem keep_keys_facts {jt : String} {keep : List String}
    (h : assocGet jt KEEP_KEYS = some keep) :
    "uid" ∈ keep ∧ "error" ∉ keep ∧ "results" ∉ keep := by
  have hmem : (jt, keep) ∈ KEEP_KEYS := mem_of_assocGet h
  simp only [KEEP_KEYS, List.mem_cons, List.not_mem_nil, or_false,
    Prod.mk.injEq] at hmem
  rcases hmem with ⟨-, rfl⟩ | ⟨-, rfl⟩ | ⟨-, rfl⟩ | ⟨-, rfl⟩ | ⟨-, rfl⟩ |
    ⟨-, rfl⟩ | ⟨-, rfl⟩ <;> decide

/-! ### Lemmas on the TrustRank runner -/

theorem trustrankUpdateFirst_found {uid : String} {l : List TrustRankDoc}
    {d : TrustRankDoc} (h : l.find? (fun x => x.uid = uid) = some d)
    (s : String) (err : Option String) (res : Option TrustRankResults) :
    (trustrankUpdateFirst uid s err res l).2 = true ∧
    (trustrankUpdateFirst uid s err res l).1.find? (fun x => x.uid = uid) =
      some { d with
        status := s
        error := err.elim d.error some
        results := res.elim d.results some } := by
  induction l with
  | nil => cases h
  | cons hd tl ih =>
    by_cases hp : hd.uid = uid
    · rw [List.find?_cons_of_pos _ (by simp [hp])] at h
      cases h
      constructor
      · simp [trustrankUpdateFirst, if_pos hp]
      · simp only [trustrankUpdateFirst, if_pos hp]
        exact List.find?_cons_of_pos _ (by simp [hp])
    · rw [List.find?_cons_of_neg _ (by simp [hp])] at h
      obtain ⟨ih₁, ih₂⟩ := ih h
      constructor
      · simp only [trustrankUpdateFirst, if_neg hp]
        exact ih₁
      · simp only [trustrankUpdateFirst, if_neg hp]
        rw [List.find?_cons_of_neg _ (by simp [hp])]
        exact ih₂

theorem trustrankSetStatus_found {uid : String} {st : TrustRankState}
    {d : TrustRankDoc} (h : st.store.find? (fun x => x.uid = uid) = some d)
    (s : String) (err : Option String) (res : Option TrustRankResults) :
    (trustrankSetStatus uid s err res st).store.find? (fun x => x.uid = uid) =
      some { d with
        status := s
        error := err.elim d.error some
        results := res.elim d.results some } ∧
    (trustrankSetStatus uid s err res st).history = st.history ++ [(uid, s)] ∧
    (trustrankSetStatus uid s err res st).staticFlag = st.staticFlag ∧
    (trustrankSetStatus uid s err res st).tasks = st.tasks := by
  obtain ⟨h₁, h₂⟩ := trustrankUpdateFirst_found h s err res
  refine ⟨h₂, ?_, rfl, rfl⟩
  simp [trustrankSetStatus, h₁]

/-! ### Claim C2 -/

theorem process_exit_msg_ne_empty (n : Int) :
    ("Process exited with exit code " ++ toString n ++
      " -- please contact API developer.") ≠ "" := by
  intro hc
  have h₂ := congrArg String.data hc
  rw [String.data_append, String.data_append] at h₂
  simp at h₂

/-- Claim C2 as stated is false on the code: the wrapper records the raised
exception's text verbatim, and that text can be empty.  Concretely, with `N`
set and the subprocess exiting 0, `next(reader)` on a truncated or empty
output file (`routers/trustrank.py`, lines 200-210) raises a bare
`StopIteration`, whose text is the empty string, and
`run_trustrank_wrapper` records `status = "failed"` with `error = ""` — an
empty error field.  The formalised claim is refuted at exactly such an
environment. -/
theorem runner_records_empty_error_on_messageless_exception :
    ¬ runnerNonEmptyErrorProp := by
  intro h
  obtain ⟨-, e, he, hne⟩ := h ⟨0, 0, .error ""⟩ "u1"
    ⟨[⟨⟨["P1"], 85 / 100, true, true, some 5⟩, "u1", "submitted", none, none⟩],
      some true, ["u1"], [("u1", "submitted")]⟩
    ⟨⟨["P1"], 85 / 100, true, true, some 5⟩, "u1", "submitted", none, none⟩
    rfl "" rfl (by decide) rfl
  have hval : trustrankErrorOf "u1"
      (run_trustrank_wrapper ⟨0, 0, .error ""⟩ "u1"
        ⟨[⟨⟨["P1"], 85 / 100, true, true, some 5⟩, "u1", "submitted", none, none⟩],
          some true, ["u1"], [("u1", "submitted")]⟩).1 = some "" := rfl
  rw [hval] at he
  cases he
  exact hne rfl

/-- Claim C2, amended: for a stored job, the runner entry point never lets
an exception escape (its result is always `.ok ()`) and never leaves the
job in `running`; a non-zero exit of the external subprocess records
`failed` with the non-empty diagnostic that includes the exit code, and an
exception raised while processing the output records `failed` with `error`
equal to the exception's text verbatim — which is therefore empty exactly
when the exception carries no message, as the bare `StopIteration` from a
truncated output file does. -/
theorem runner_failures_recorded_never_raised :
    ∀ (env : TrustRankEnv) (uid : String) (st : TrustRankState) (d : TrustRankDoc),
      st.store.find? (fun x => x.uid = uid) = some d →
      (run_trustrank_wrapper env uid st).2 = .ok () ∧
      trustrankStatusOf uid (run_trustrank_wrapper env uid st).1 ≠ some "running" ∧
      (env.subprocExit ≠ 0 →
        trustrankStatusOf uid (run_trustrank_wrapper env uid st).1 = some "failed" ∧
        trustrankErrorOf uid (run_trustrank_wrapper env uid st).1 =
          some ("Process exited with exit code " ++ toString env.subprocExit ++
            " -- please contact API developer.") ∧
        ("Process exited with exit code " ++ toString env.subprocExit ++
          " -- please contact API developer.") ≠ "") ∧
      (∀ m, env.subprocExit = 0 → env.post = .error m →
        ¬(d.query.N = none ∨ d.query.N = some 0) →
        trustrankStatusOf uid (run_trustrank_wrapper env uid st).1 = some "failed" ∧
        trustrankErrorOf uid (run_trustrank_wrapper env uid st).1 = some m) := by
  intro env uid st d h
  have h₀ : ({ st with
      staticFlag := (generate_ranking_static_files env.staticExit st.staticFlag).1 } :
        TrustRankState).store.find? (fun x => x.uid = uid) = some d := h
  obtain ⟨hf₁, hh₁, hsf₁, ht₁⟩ := trustrankSetStatus_found h₀ "running" none none
  have hrun : run_trustrank env uid st =
      (if env.subprocExit ≠ 0 then
        (trustrankSetStatus uid "failed"
          (some ("Process exited with exit code " ++ toString env.subprocExit ++
            " -- please contact API developer.")) none
          (trustrankSetStatus uid "running" none none
            { st with staticFlag :=
              (generate_ranking_static_files env.staticExit st.staticFlag).1 }),
          Except.ok ())
      else if d.query.N = none ∨ d.query.N = some 0 then
        (trustrankSetStatus uid "completed" none none
          (trustrankSetStatus uid "running" none none
            { st with staticFlag :=
              (generate_ranking_static_files env.staticExit st.staticFlag).1 }),
          Except.ok ())
      else
        match env.post with
        | .error msg =>
          (trustrankSetStatus uid "running" none none
            { st with staticFlag :=
              (generate_ranking_static_files env.staticExit st.staticFlag).1 },
            .error msg)
        | .ok results =>
          (trustrankSetStatus uid "completed" none (some results)
            (trustrankSetStatus uid "running" none none
              { st with staticFlag :=
                (generate_ranking_static_files env.staticExit st.staticFlag).1 }),
            Except.ok ())) := by
    rw [run_trustrank]
    simp only [h₀]
  by_cases hsub : env.subprocExit = 0
  · by_cases hN : d.query.N = none ∨ d.query.N = some 0
    · have hres : run_trustrank_wrapper env uid st =
          (trustrankSetStatus uid "completed" none none
            (trustrankSetStatus uid "running" none none
              { st with staticFlag :=
                (generate_ranking_static_files env.staticExit st.staticFlag).1 }),
            Except.ok ()) := by
        rw [run_trustrank_wrapper, hrun]
        simp [hsub, hN]
      obtain ⟨hf₂, -, -, -⟩ := trustrankSetStatus_found hf₁ "completed" none none
      refine ⟨by rw [hres], ?_, fun hc => absurd hsub hc, fun m h0 hpost hN2 => absurd hN hN2⟩
      rw [hres]
      simp [trustrankStatusOf, hf₂]
    · cases hpost : env.post with
      | error msg =>
        have hres : run_trustrank_wrapper env uid st =
            (trustrankSetStatus uid "failed" (some msg) none
              (trustrankSetStatus uid "running" none none
                { st with staticFlag :=
                  (generate_ranking_static_files env.staticExit st.staticFlag).1 }),
              Except.ok ()) := by
          rw [run_trustrank_wrapper, hrun]
          simp [hsub, hN, hpost]
        obtain ⟨hf₂, -, -, -⟩ := trustrankSetStatus_found hf₁ "failed" (some msg) none
        refine ⟨by rw [hres], ?_, fun hc => absurd hsub hc, ?_⟩
        · rw [hres]
          simp [trustrankStatusOf, hf₂]
        · intro m h0 hpost₂ hN2
          cases hpost₂
          refine ⟨?_, ?_⟩
          · rw [hres]
            simp [trustrankStatusOf, hf₂]
          · rw [hres]
            simp [trustrankErrorOf, hf₂, Option.elim]
      | ok results =>
        have hres : run_trustrank_wrapper env uid st =
            (trustrankSetStatus uid "completed" none (some results)
              (trustrankSetStatus uid "running" none none
                { st with staticFlag :=
                  (generate_ranking_static_files env.staticExit st.staticFlag).1 }),
              Except.ok ()) := by
          rw [run_trustrank_wrapper, hrun]
          simp [hsub, hN, hpost]
        obtain ⟨hf₂, -, -, -⟩ :=
          trustrankSetStatus_found hf₁ "completed" none (some results)
        refine ⟨by rw [hres], ?_, fun hc => absurd hsub hc,
          fun m h0 hpost₂ hN2 => by cases hpost₂⟩
        rw [hres]
        simp [trustrankStatusOf, hf₂]
  · have hres : run_trustrank_wrapper env uid st =
        (trustrankSetStatus uid "failed"
          (some ("Process exited with exit code " ++ toString env.subprocExit ++
            " -- please contact API developer.")) none
          (trustrankSetStatus uid "running" none none
            { st with staticFlag :=
              (generate_ranking_static_files env.staticExit st.staticFlag).1 }),
          Except.ok ()) := by
      rw [run_trustrank_wrapper, hrun]
      simp [hsub]
    obtain ⟨hf₂, -, -, -⟩ := trustrankSetStatus_found hf₁ "failed"
      (some ("Process exited with exit code " ++ toString env.subprocExit ++
        " -- please contact API developer.")) none
    refine ⟨by rw [hres], ?_, fun hc => ⟨?_, ?_, process_exit_msg_ne_empty _⟩,
      fun m h0 hpost hN2 => absurd h0 hsub⟩
    · rw [hres]
      simp [trustrankStatusOf, hf₂]
    · rw [hres]
      simp [trustrankStatusOf, hf₂]
    · rw [hres]
      simp [trustrankErrorOf, hf₂, Option.elim]

/-- Witness for C2: a job whose subprocess exits with code 2 ends `failed`
with the diagnostic naming exit code 2, and nothing is raised. -/
theorem runner_failures_recorded_witness :
    (run_trustrank_wrapper ⟨0, 2, .ok ⟨[], []⟩⟩ "u1"
      ⟨[⟨⟨["P1"], 85 / 100, true, true, none⟩, "u1", "submitted", none, none⟩],
        some true, ["u1"], [("u1", "submitted")]⟩).2 = .ok () ∧
    trustrankStatusOf "u1"
      (run_trustrank_wrapper ⟨0, 2, .ok ⟨[], []⟩⟩ "u1"
        ⟨[⟨⟨["P1"], 85 / 100, true, true, none⟩, "u1", "submitted", none, none⟩],
          some true, ["u1"], [("u1", "submitted")]⟩).1 = some "failed" := by
  refine ⟨?_, ?_⟩
  · exact (runner_failures_recorded_never_raised ⟨0, 2, .ok ⟨[], []⟩⟩ "u1"
      ⟨[⟨⟨["P1"], 85 / 100, true, true, none⟩, "u1", "submitted", none, none⟩],
        some true, ["u1"], [("u1", "submitted")]⟩
      ⟨⟨["P1"], 85 / 100, true, true, none⟩, "u1", "submitted", none, none⟩
      rfl).1
  · exact ((runner_failures_recorded_never_raised ⟨0, 2, .ok ⟨[], []⟩⟩ "u1"
      ⟨[⟨⟨["P1"], 85 / 100, true, true, none⟩, "u1", "submitted", none, none⟩],
        some true, ["u1"], [("u1", "submitted")]⟩
      ⟨⟨["P1"], 85 / 100, true, true, none⟩, "u1", "submitted", none, none⟩
      rfl).2.2.1 (by decide)).1

/-! ### Claim C3 -/

theorem run_trustrank_wrapper_terminal (env : TrustRankEnv) (uid : String)
    (st : TrustRankState) (d : TrustRankDoc)
    (h : st.store.find? (fun x => x.uid = uid) = some d) :
    ∃ (t : String) (err : Option String) (res : Option TrustRankResults),
      (t = "completed" ∨ t = "failed") ∧
      (run_trustrank_wrapper env uid st).1 =
        trustrankSetStatus uid t err res
          (trustrankSetStatus uid "running" none none
            { st with staticFlag :=
              (generate_ranking_static_files env.staticExit st.staticFlag).1 }) := by
  have h₀ : ({ st with
      staticFlag := (generate_ranking_static_files env.staticExit st.staticFlag).1 } :
        TrustRankState).store.find? (fun x => x.uid = uid) = some d := h
  have hrun : run_trustrank env uid st =
      (if env.subprocExit ≠ 0 then
        (trustrankSetStatus uid "failed"
          (some ("Process exited with exit code " ++ toString env.subprocExit ++
            " -- please contact API developer.")) none
          (trustrankSetStatus uid "running" none none
            { st with staticFlag :=
              (generate_ranking_static_files env.staticExit st.staticFlag).1 }),
          Except.ok ())
      else if d.query.N = none ∨ d.query.N = some 0 then
        (trustrankSetStatus uid "completed" none none
          (trustrankSetStatus uid "running" none none
            { st with staticFlag :=
              (generate_ranking_static_files env.staticExit st.staticFlag).1 }),
          Except.ok ())
      else
        match env.post with
        | .error msg =>
          (trustrankSetStatus uid "running" none none
            { st with staticFlag :=
              (generate_ranking_static_files env.staticExit st.staticFlag).1 },
            .error msg)
        | .ok results =>
          (trustrankSetStatus uid "completed" none (some results)
            (trustrankSetStatus uid "running" none none
              { st with staticFlag :=
                (generate_ranking_static_files env.staticExit st.staticFlag).1 }),
            Except.ok ())) := by
    rw [run_trustrank]
    simp only [h₀]
  by_cases hsub : env.subprocExit = 0
  · by_cases hN : d.query.N = none ∨ d.query.N = some 0
    · refine ⟨"completed", none, none, .inl rfl, ?_⟩
      rw [run_trustrank_wrapper, hrun]
      simp [hsub, hN]
    · cases hpost : env.post with
      | error msg =>
        refine ⟨"failed", some msg, none, .inr rfl, ?_⟩
        rw [run_trustrank_wrapper, hrun]
        simp [hsub, hN, hpost]
      | ok results =>
        refine ⟨"completed", none, some results, .inl rfl, ?_⟩
        rw [run_trustrank_wrapper, hrun]
        simp [hsub, hN, hpost]
  · refine ⟨"failed",
      some ("Process exited with exit code " ++ toString env.subprocExit ++
        " -- please contact API developer."), none, .inr rfl, ?_⟩
    rw [run_trustrank_wrapper, hrun]
    simp [hsub]

/-- Claim C3: a fresh submission followed by its background run writes the
status sequence `submitted`, `running`, then exactly one of `completed` or
`failed` — in that order, nothing skipped — and the run enqueues no further
task, so a failed job is not re-run automatically. -/
theorem status_sequence_submitted_running_terminal :
    ∀ (env : TrustRankEnv) (fresh : String) (tr : TrustRankRequest)
      (st : TrustRankState) (uid₁ : String) (st₁ : TrustRankState),
      (∀ d ∈ st.store, d.uid ≠ fresh) →
      (∀ p ∈ st.history, p.1 ≠ fresh) →
      tr.seeds ≠ [] →
      (∀ d ∈ st.store, d.query ≠
        ⟨trustrank_canonical_seeds tr.seeds, tr.damping_factor.getD (85 / 100 : ℚ),
         tr.only_direct_drugs.getD true, tr.only_approved_drugs.getD true, tr.N⟩) →
      trustrank_submit fresh tr st = (.ok uid₁, st₁) →
      uid₁ = fresh ∧
      historyFor fresh st₁ = ["submitted"] ∧
      (historyFor fresh (run_trustrank_wrapper env fresh st₁).1 =
          ["submitted", "running", "completed"] ∨
        historyFor fresh (run_trustrank_wrapper env fresh st₁).1 =
          ["submitted", "running", "failed"]) ∧
      (run_trustrank_wrapper env fresh st₁).1.tasks = st₁.tasks := by
  intro env fresh tr st uid₁ st₁ hfresh hnohist hseeds hnew hsub
  have hnil : st.history.filter (fun p => p.1 = fresh) = [] :=
    List.filter_eq_nil_iff.mpr (fun p hp => by simpa using hnohist p hp)
  have hfindq : st.store.find? (fun doc => doc.query =
      ⟨trustrank_canonical_seeds tr.seeds, tr.damping_factor.getD (85 / 100 : ℚ),
       tr.only_direct_drugs.getD true, tr.only_approved_drugs.getD true, tr.N⟩) =
      none :=
    List.find?_eq_none.mpr (fun x hx => by simpa using hnew x hx)
  simp only [trustrank_submit, hseeds, if_false, ite_false, hfindq] at hsub
  obtain ⟨h₁, h₂⟩ := Prod.mk.injEq .. ▸ hsub
  cases Except.ok.injEq .. ▸ h₁
  cases h₂
  have hA : st.store.find? (fun x => x.uid = fresh) = none :=
    List.find?_eq_none.mpr (fun x hx => by simpa using hfresh x hx)
  have hfind₁ : (st.store ++
      [(⟨⟨trustrank_canonical_seeds tr.seeds, tr.damping_factor.getD (85 / 100 : ℚ),
          tr.only_direct_drugs.getD true, tr.only_approved_drugs.getD true, tr.N⟩,
        fresh, "submitted", none, none⟩ : TrustRankDoc)]).find?
      (fun x => x.uid = fresh) =
      some ⟨⟨trustrank_canonical_seeds tr.seeds, tr.damping_factor.getD (85 / 100 : ℚ),
          tr.only_direct_drugs.getD true, tr.only_approved_drugs.getD true, tr.N⟩,
        fresh, "submitted", none, none⟩ := by
    rw [List.find?_append, hA]
    simp
  obtain ⟨t, err, res, hterm, hfinal⟩ :=
    run_trustrank_wrapper_terminal env fresh
      ⟨st.store ++
        [⟨⟨trustrank_canonical_seeds tr.seeds, tr.damping_factor.getD (85 / 100 : ℚ),
           tr.only_direct_drugs.getD true, tr.only_approved_drugs.getD true, tr.N⟩,
          fresh, "submitted", none, none⟩],
       st.staticFlag, st.tasks ++ [fresh], st.history ++ [(fresh, "submitted")]⟩
      ⟨⟨trustrank_canonical_seeds tr.seeds, tr.damping_factor.getD (85 / 100 : ℚ),
         tr.only_direct_drugs.getD true, tr.only_approved_drugs.getD true, tr.N⟩,
        fresh, "submitted", none, none⟩ hfind₁
  obtain ⟨hf₁, hh₁, hsf₁, ht₁⟩ :=
    @trustrankSetStatus_found fresh
      ⟨st.store ++
        [⟨⟨trustrank_canonical_seeds tr.seeds, tr.damping_factor.getD (85 / 100 : ℚ),
           tr.only_direct_drugs.getD true, tr.only_approved_drugs.getD true, tr.N⟩,
          fresh, "submitted", none, none⟩],
       (generate_ranking_static_files env.staticExit st.staticFlag).1,
       st.tasks ++ [fresh], st.history ++ [(fresh, "submitted")]⟩
      ⟨⟨trustrank_canonical_seeds tr.seeds,
        tr.damping_factor.getD (85 / 100 : ℚ), tr.only_direct_drugs.getD true,
        tr.only_approved_drugs.getD true, tr.N⟩, fresh, "submitted", none, none⟩
      hfind₁ "running" none none
  obtain ⟨hf₂, hh₂, hsf₂, ht₂⟩ := trustrankSetStatus_found hf₁ t err res
  refine ⟨rfl, ?_, ?_, ?_⟩
  · simp [historyFor, List.filter_append, hnil]
  · rw [hfinal]
    rw [historyFor, hh₂, hh₁]
    rcases hterm with h | h <;> rw [h]
    · left
      simp [List.filter_append, hnil]
    · right
      simp [List.filter_append, hnil]
  · rw [hfinal, ht₂, ht₁]

/-- Witness for C3: a fresh submission into an empty store, followed by a
successful run (exit code 0, no `N`), writes exactly
`submitted, running, completed` and enqueues nothing further. -/
theorem status_sequence_witness :
    historyFor "u1"
      (run_trustrank_wrapper ⟨0, 0, .ok ⟨[], []⟩⟩ "u1"
        ⟨[⟨⟨["P1"], 85 / 100, true, true, none⟩, "u1", "submitted", none, none⟩],
          none, ["u1"], [("u1", "submitted")]⟩).1 =
        ["submitted", "running", "completed"] ∨
    historyFor "u1"
      (run_trustrank_wrapper ⟨0, 0, .ok ⟨[], []⟩⟩ "u1"
        ⟨[⟨⟨["P1"], 85 / 100, true, true, none⟩, "u1", "submitted", none, none⟩],
          none, ["u1"], [("u1", "submitted")]⟩).1 =
        ["submitted", "running", "failed"] :=
  (status_sequence_submitted_running_terminal ⟨0, 0, .ok ⟨[], []⟩⟩ "u1"
    ⟨["P1"], none, none, none, none⟩ ⟨[], none, [], []⟩ "u1"
    ⟨[⟨⟨["P1"], 85 / 100, true, true, none⟩, "u1", "submitted", none, none⟩],
      none, ["u1"], [("u1", "submitted")]⟩
    (by simp) (by simp) (by decide) (by simp) rfl).2.2.1

/-! ### Claim C8 -/

theorem findOneUid_some_uid {uid : String} {coll : List BsonDoc} {doc : BsonDoc}
    (h : findOneUid uid coll = some doc) :
    assocGet "uid" doc = some (.str uid) := by
  rw [findOneUid] at h
  exact of_decide_eq_true
    (@List.find?_some _
      (fun d => decide (assocGet "uid" d = some (BsonValue.str uid))) _ _ h)

/-- Claim C8: administrative resubmission of an existing job keeps its UID
(the same UID is returned, the stored document still carries it, and the
collection's UID column is unchanged — no new entry, no new UID), resets the
status to `submitted`, preserves every whitelisted canonical-request field,
and re-enqueues the family's runner wrapper exactly once. -/
theorem resubmit_preserves_uid_and_canonical_request :
    ∀ (job_type uid : String) (st : AdminState) (doc : BsonDoc)
      (keep : List String) (wrapper uidRes : String) (st' : AdminState),
      findOneUid uid st.coll = some doc →
      assocGet job_type KEEP_KEYS = some keep →
      resubmitDispatch job_type
        (pySetItem "status" (.str "submitted") (pyFilterKeys keep doc)) =
        .ok (some wrapper) →
      resubmit_job job_type uid st = (.ok uidRes, st') →
      uidRes = uid ∧
      st'.coll.length = st.coll.length ∧
      st'.coll.map (fun d => assocGet "uid" d) =
        st.coll.map (fun d => assocGet "uid" d) ∧
      st'.tasks = st.tasks ++ [(wrapper, uid)] ∧
      findOneUid uid st'.coll =
        some (pySetItem "status" (.str "submitted") (pyFilterKeys keep doc)) ∧
      assocGet "status"
        (pySetItem "status" (.str "submitted") (pyFilterKeys keep doc)) =
        some (.str "submitted") ∧
      assocGet "uid"
        (pySetItem "status" (.str "submitted") (pyFilterKeys keep doc)) =
        assocGet "uid" doc ∧
      (∀ k, k ∈ keep → k ≠ "status" →
        assocGet k
          (pySetItem "status" (.str "submitted") (pyFilterKeys keep doc)) =
          assocGet k doc) := by
  intro job_type uid st doc keep wrapper uidRes st' hfind hkeep hdisp hres
  obtain ⟨hkuid, -, -⟩ := keep_keys_facts hkeep
  have hdocuid : assocGet "uid" doc = some (.str uid) := findOneUid_some_uid hfind
  have hpres : ∀ k, k ∈ keep → k ≠ "status" →
      assocGet k (pySetItem "status" (.str "submitted") (pyFilterKeys keep doc)) =
        assocGet k doc := by
    intro k hk hkst
    rw [assocGet_pySetItem_other hkst, assocGet_pyFilterKeys, if_pos hk]
  have huid₂ : assocGet "uid"
      (pySetItem "status" (.str "submitted") (pyFilterKeys keep doc)) =
      some (.str uid) := by
    rw [hpres "uid" hkuid (by decide), hdocuid]
  simp only [resubmit_job, hfind, hkeep, hdisp, Option.elim] at hres
  obtain ⟨h₁, h₂⟩ := Prod.mk.injEq .. ▸ hres
  cases Except.ok.injEq .. ▸ h₁
  cases h₂
  obtain ⟨hr₁, hr₂, hr₃⟩ := replaceOneUid_spec hfind huid₂
  exact ⟨rfl, hr₂, hr₃, rfl, hr₁, assocGet_pySetItem_self .., huid₂.trans hdocuid.symm, hpres⟩

/-- Witness for C8: resubmitting a failed TrustRank job with UID `u1`
replaces its document in place (collection length unchanged) and enqueues
`run_trustrank_wrapper` for `u1` exactly once. -/
theorem resubmit_preserves_uid_witness :
    (⟨[[("uid", .str "u1"), ("seed_proteins", .strList ["P1"]),
        ("damping_factor", .rat (17 / 20)), ("only_approved_drugs", .bool true),
        ("only_direct_drugs", .bool true), ("N", .null),
        ("status", .str "submitted")]],
      [("run_trustrank_wrapper", "u1")]⟩ : AdminState).coll.length =
      (⟨[[("uid", .str "u1"), ("seed_proteins", .strList ["P1"]),
          ("damping_factor", .rat (17 / 20)), ("only_approved_drugs", .bool true),
          ("only_direct_drugs", .bool true), ("N", .null),
          ("status", .str "failed"), ("error", .str "boom")]],
        []⟩ : AdminState).coll.length ∧
    (⟨[[("uid", .str "u1"), ("seed_proteins", .strList ["P1"]),
        ("damping_factor", .rat (17 / 20)), ("only_approved_drugs", .bool true),
        ("only_direct_drugs", .bool true), ("N", .null),
        ("status", .str "submitted")]],
      [("run_trustrank_wrapper", "u1")]⟩ : AdminState).tasks =
      (⟨[[("uid", .str "u1"), ("seed_proteins", .strList ["P1"]),
          ("damping_factor", .rat (17 / 20)), ("only_approved_drugs", .bool true),
          ("only_direct_drugs", .bool true), ("N", .null),
          ("status", .str "failed"), ("error", .str "boom")]],
        []⟩ : AdminState).tasks ++ [("run_trustrank_wrapper", "u1")] := by
  refine ⟨?_, ?_⟩
  · exact (resubmit_preserves_uid_and_canonical_request "trustrank" "u1"
      ⟨[[("uid", .str "u1"), ("seed_proteins", .strList ["P1"]),
         ("damping_factor", .rat (17 / 20)), ("only_approved_drugs", .bool true),
         ("only_direct_drugs", .bool true), ("N", .null),
         ("status", .str "failed"), ("error", .str "boom")]], []⟩
      [("uid", .str "u1"), ("seed_proteins", .strList ["P1"]),
       ("damping_factor", .rat (17 / 20)), ("only_approved_drugs", .bool true),
       ("only_direct_drugs", .bool true), ("N", .null),
       ("status", .str "failed"), ("error", .str "boom")]
      ["seed_proteins", "damping_factor", "only_approved_drugs",
       "only_direct_drugs", "N", "uid", "_id"]
      "run_trustrank_wrapper" "u1"
      ⟨[[("uid", .str "u1"), ("seed_proteins", .strList ["P1"]),
         ("damping_factor", .rat (17 / 20)), ("only_approved_drugs", .bool true),
         ("only_direct_drugs", .bool true), ("N", .null),
         ("status", .str "submitted")]],
        [("run_trustrank_wrapper", "u1")]⟩ rfl rfl rfl rfl).2.1
  · exact (resubmit_preserves_uid_and_canonical_request "trustrank" "u1"
      ⟨[[("uid", .str "u1"), ("seed_proteins", .strList ["P1"]),
         ("damping_factor", .rat (17 / 20)), ("only_approved_drugs", .bool true),
         ("only_direct_drugs", .bool true), ("N", .null),
         ("status", .str "failed"), ("error", .str "boom")]], []⟩
      [("uid", .str "u1"), ("seed_proteins", .strList ["P1"]),
       ("damping_factor", .rat (17 / 20)), ("only_approved_drugs", .bool true),
       ("only_direct_drugs", .bool true), ("N", .null),
       ("status", .str "failed"), ("error", .str "boom")]
      ["seed_proteins", "damping_factor", "only_approved_drugs",
       "only_direct_drugs", "N", "uid", "_id"]
      "run_trustrank_wrapper" "u1"
      ⟨[[("uid", .str "u1"), ("seed_proteins", .strList ["P1"]),
         ("damping_factor", .rat (17 / 20)), ("only_approved_drugs", .bool true),
         ("only_direct_drugs", .bool true), ("N", .null),
         ("status", .str "submitted")]],
        [("run_trustrank_wrapper", "u1")]⟩ rfl rfl rfl rfl).2.2.2.1

/-! ### Claim C10 -/

/-- Claim C10: after administrative resubmission the stored document holds
exactly fields from the family's whitelist plus `status = "submitted"`; in
particular the `error` and `results` fields of an earlier failed or
completed run are gone (no whitelist contains them), so a poll during the
re-run cannot observe stale failure or result data; whitelisted fields keep
their previous values. -/
theorem resubmit_clears_stale_error_and_results :
    ∀ (job_type uid : String) (st : AdminState) (doc : BsonDoc)
      (keep : List String) (uidRes : String) (st' : AdminState),
      findOneUid uid st.coll = some doc →
      assocGet job_type KEEP_KEYS = some keep →
      resubmit_job job_type uid st = (.ok uidRes, st') →
      findOneUid uid st'.coll =
        some (pySetItem "status" (.str "submitted") (pyFilterKeys keep doc)) ∧
      assocGet "status"
        (pySetItem "status" (.str "submitted") (pyFilterKeys keep doc)) =
        some (.str "submitted") ∧
      assocGet "error"
        (pySetItem "status" (.str "submitted") (pyFilterKeys keep doc)) = none ∧
      assocGet "results"
        (pySetItem "status" (.str "submitted") (pyFilterKeys keep doc)) = none ∧
      (∀ k, k ∈ (pySetItem "status" (.str "submitted")
          (pyFilterKeys keep doc)).map Prod.fst → k ∈ keep ∨ k = "status") ∧
      (∀ k, k ∈ keep → k ≠ "status" →
        assocGet k
          (pySetItem "status" (.str "submitted") (pyFilterKeys keep doc)) =
          assocGet k doc) := by
  intro job_type uid st doc keep uidRes st' hfind hkeep hres
  obtain ⟨hkuid, hkerr, hkres⟩ := keep_keys_facts hkeep
  have hdocuid : assocGet "uid" doc = some (.str uid) := findOneUid_some_uid hfind
  have hpres : ∀ k, k ∈ keep → k ≠ "status" →
      assocGet k (pySetItem "status" (.str "submitted") (pyFilterKeys keep doc)) =
        assocGet k doc := by
    intro k hk hkst
    rw [assocGet_pySetItem_other hkst, assocGet_pyFilterKeys, if_pos hk]
  have huid₂ : assocGet "uid"
      (pySetItem "status" (.str "submitted") (pyFilterKeys keep doc)) =
      some (.str uid) := by
    rw [hpres "uid" hkuid (by decide), hdocuid]
  have herr : assocGet "error"
      (pySetItem "status" (.str "submitted") (pyFilterKeys keep doc)) = none := by
    rw [assocGet_pySetItem_other (by decide), assocGet_pyFilterKeys, if_neg hkerr]
  have hress : assocGet "results"
      (pySetItem "status" (.str "submitted") (pyFilterKeys keep doc)) = none := by
    rw [assocGet_pySetItem_other (by decide), assocGet_pyFilterKeys, if_neg hkres]
  have hkeys : ∀ k, k ∈ (pySetItem "status" (.str "submitted")
      (pyFilterKeys keep doc)).map Prod.fst → k ∈ keep ∨ k = "status" := by
    intro k hk
    rcases keys_pySetItem hk with h | h
    · exact .inr h
    · exact .inl (keys_pyFilterKeys h)
  cases hdisp : resubmitDispatch job_type
      (pySetItem "status" (.str "submitted") (pyFilterKeys keep doc)) with
  | error e =>
    simp only [resubmit_job, hfind, hkeep, hdisp] at hres
    obtain ⟨h₁, -⟩ := Prod.mk.injEq .. ▸ hres
    cases h₁
  | ok task? =>
    simp only [resubmit_job, hfind, hkeep, hdisp] at hres
    obtain ⟨h₁, h₂⟩ := Prod.mk.injEq .. ▸ hres
    cases Except.ok.injEq .. ▸ h₁
    cases h₂
    obtain ⟨hr₁, -, -⟩ := replaceOneUid_spec hfind huid₂
    exact ⟨hr₁, assocGet_pySetItem_self .., herr, hress, hkeys, hpres⟩

/-- Witness for C10: the resubmitted TrustRank document of a job that had
both an `error` and a `results` field carries neither afterwards. -/
theorem resubmit_clears_stale_witness :
    assocGet "error"
      (pySetItem "status" (.str "submitted")
        (pyFilterKeys
          ["seed_proteins", "damping_factor", "only_approved_drugs",
           "only_direct_drugs", "N", "uid", "_id"]
          [("uid", .str "u1"), ("seed_proteins", .strList ["P1"]),
           ("damping_factor", .rat (17 / 20)), ("only_approved_drugs", .bool true),
           ("only_direct_drugs", .bool true), ("N", .null),
           ("status", .str "failed"), ("error", .str "boom"),
           ("results", .str "stale")])) = none ∧
    assocGet "results"
      (pySetItem "status" (.str "submitted")
        (pyFilterKeys
          ["seed_proteins", "damping_factor", "only_approved_drugs",
           "only_direct_drugs", "N", "uid", "_id"]
          [("uid", .str "u1"), ("seed_proteins", .strList ["P1"]),
           ("damping_factor", .rat (17 / 20)), ("only_approved_drugs", .bool true),
           ("only_direct_drugs", .bool true), ("N", .null),
           ("status", .str "failed"), ("error", .str "boom"),
           ("results", .str "stale")])) = none := by
  refine ⟨?_, ?_⟩
  · exact (resubmit_clears_stale_error_and_results "trustrank" "u1"
      ⟨[[("uid", .str "u1"), ("seed_proteins", .strList ["P1"]),
         ("damping_factor", .rat (17 / 20)), ("only_approved_drugs", .bool true),
         ("only_direct_drugs", .bool true), ("N", .null),
         ("status", .str "failed"), ("error", .str "boom"),
         ("results", .str "stale")]], []⟩
      [("uid", .str "u1"), ("seed_proteins", .strList ["P1"]),
       ("damping_factor", .rat (17 / 20)), ("only_approved_drugs", .bool true),
       ("only_direct_drugs", .bool true), ("N", .null),
       ("status", .str "failed"), ("error", .str "boom"),
       ("results", .str "stale")]
      ["seed_proteins", "damping_factor", "only_approved_drugs",
       "only_direct_drugs", "N", "uid", "_id"] "u1"
      ⟨[[("uid", .str "u1"), ("seed_proteins", .strList ["P1"]),
         ("damping_factor", .rat (17 / 20)), ("only_approved_drugs", .bool true),
         ("only_direct_drugs", .bool true), ("N", .null),
         ("status", .str "submitted")]],
        [("run_trustrank_wrapper", "u1")]⟩ rfl rfl rfl).2.2.1
  · exact (resubmit_clears_stale_error_and_results "trustrank" "u1"
      ⟨[[("uid", .str "u1"), ("seed_proteins", .strList ["P1"]),
         ("damping_factor", .rat (17 / 20)), ("only_approved_drugs", .bool true),
         ("only_direct_drugs", .bool true), ("N", .null),
         ("status", .str "failed"), ("error", .str "boom"),
         ("results", .str "stale")]], []⟩
      [("uid", .str "u1"), ("seed_proteins", .strList ["P1"]),
       ("damping_factor", .rat (17 / 20)), ("only_approved_drugs", .bool true),
       ("only_direct_drugs", .bool true), ("N", .null),
       ("status", .str "failed"), ("error", .str "boom"),
       ("results", .str "stale")]
      ["seed_proteins", "damping_factor", "only_approved_drugs",
       "only_direct_drugs", "N", "uid", "_id"] "u1"
      ⟨[[("uid", .str "u1"), ("seed_proteins", .strList ["P1"]),
         ("damping_factor", .rat (17 / 20)), ("only_approved_drugs", .bool true),
         ("only_direct_drugs", .bool true), ("N", .null),
         ("status", .str "submitted")]],
        [("run_trustrank_wrapper", "u1")]⟩ rfl rfl rfl).2.2.2.1

end NedrexApi
